import Mathlib

/-!
Shallow embedding of `src/session.ts` (dialob-fill-api): the action-based
state reducer, the reverse-reference index, the debounced sync queue and the
listener registry, together with theorems settling the specification claims.

JavaScript/immer semantics captured here:
* `Record<string, T>` objects are insertion-ordered association lists with
  unique keys; assignment replaces in place, `delete` removes the key.
* `Set<string>` is an insertion-ordered duplicate-free list.
* `produce` (immer): if the recipe throws, the draft is discarded and the
  session keeps its previous state; otherwise the new state replaces it.
* `if(rev)` is a JS truthiness test: `0` and `undefined` are falsy.
* `Array.prototype.splice(start, 1)` with a negative `start` counts from the
  end, so `splice(-1, 1)` deletes the last element.
-/

namespace Dialob

/-- A `DialobError`; `isRequestError` marks the `DialobRequestError` subclass
used by `handleError` to classify errors as SYNC rather than CLIENT. -/
structure DialobErr where
  message : String
  isRequestError : Bool
deriving DecidableEq, Repr

/-- Classification used by `handleError` when firing error listeners. -/
inductive ErrClass where
  | CLIENT
  | SYNC
deriving DecidableEq, Repr

/-- One firing of the error listener list: classification plus error value. -/
abbrev ErrEvent := ErrClass × DialobErr

/-- `handleError`: `DialobRequestError` goes to SYNC listeners, every other
`DialobError` to CLIENT listeners. -/
def handleError (e : DialobErr) : ErrEvent :=
  if e.isRequestError then (ErrClass.SYNC, e) else (ErrClass.CLIENT, e)

/-- A session item (`ItemAction['item']`): id, type tag, optional children
id list (`items`, absent or null modelled as `none`) and optional value
(`null` modelled as `none`). -/
structure SessionItem where
  id : String
  type : String
  items : Option (List String)
  value : Option String
deriving DecidableEq, Repr

/-- A value set (`ValueSetAction['valueSet']`): the code only inspects its
`id`; the entries are opaque payload. -/
structure SessionValueSet where
  id : String
  entries : List String
deriving DecidableEq, Repr

/-- The `Action` union from `actions.ts` as consumed by `applyActions`;
`UNKNOWN tag` stands for any action whose `type` is none of the ten
recognised tags (such values can arrive in server responses). -/
inductive Action where
  | RESET
  | ANSWER (id : String) (answer : Option String)
  | ITEM (item : SessionItem)
  | ERROR (error : String)
  | LOCALE (value : String)
  | VALUE_SET (valueSet : SessionValueSet)
  | REMOVE_ITEMS (ids : List String)
  | COMPLETE
  | NEXT
  | PREVIOUS
  | UNKNOWN (tag : String)
deriving DecidableEq, Repr

/-- Insertion-ordered string-keyed object with unique keys (a JS object). -/
abbrev ObjMap (α : Type) := List (String × α)

/-- Property read `m[k]`. -/
def omLookup {α : Type} : ObjMap α → String → Option α
  | [], _ => none
  | (k', v) :: rest, k => if k' = k then some v else omLookup rest k

/-- Property write `m[k] = v`: replace in place if the key exists, else
append (JS insertion order). -/
def omInsert {α : Type} : ObjMap α → String → α → ObjMap α
  | [], k, v => [(k, v)]
  | (k', v') :: rest, k, v =>
      if k' = k then (k, v) :: rest else (k', v') :: omInsert rest k v

/-- `delete m[k]`. -/
def omErase {α : Type} : ObjMap α → String → ObjMap α
  | [], _ => []
  | (k', v') :: rest, k =>
      if k' = k then omErase rest k else (k', v') :: omErase rest k

/-- `Set.add`: append unless already present (JS `Set` insertion order). -/
def setAdd (l : List String) (x : String) : List String :=
  if x ∈ l then l else l ++ [x]

/-- The session state snapshot (`SessionState` in the source). `rev` is a
natural number; `locale = none` is `undefined`. -/
structure SessionState where
  items : ObjMap SessionItem
  reverseItemMap : ObjMap (List String)
  valueSets : ObjMap SessionValueSet
  errors : List String
  locale : Option String
  rev : Nat
  complete : Bool
deriving DecidableEq, Repr

/-- The state built by the `Session` constructor. -/
def initialState : SessionState :=
  { items := [], reverseItemMap := [], valueSets := [], errors := [],
    locale := none, rev := 0, complete := false }

/-- `insertReverseRef(state, parentId, refIds)`: for each child id, create
its reverse set if absent and add `parentId` to it. -/
def insertReverseRef (rim : ObjMap (List String)) (parentId : String)
    (refIds : List String) : ObjMap (List String) :=
  refIds.foldl
    (fun m refId => omInsert m refId (setAdd ((omLookup m refId).getD []) parentId))
    rim

/-- The body of the `REMOVE_ITEMS` loop for one id: delete `items[id]`, then
for each parent recorded in `reverseItemMap[id]` whose item still exists and
has an `items` field, splice out the first occurrence of `reference` — the
parent's OWN id, as written in the source (`indexOf(reference)`), not the
removed `id` — and finally delete `reverseItemMap[id]`. -/
def removeOneId (s : SessionState) (id : String) : SessionState :=
  let items1 := omErase s.items id
  let items2 :=
    match omLookup s.reverseItemMap id with
    | none => items1
    | some refs =>
        refs.foldl
          (fun its reference =>
            match omLookup its reference with
            | none => its
            | some ri =>
                match ri.items with
                | none => its
                | some kids =>
                    omInsert its reference { ri with items := some (kids.erase reference) })
          items1
  { s with items := items2, reverseItemMap := omErase s.reverseItemMap id }

/-- One iteration of the `applyActions` action loop. Returns the resulting
draft state (or the thrown `DialobError`, which aborts the whole `produce`)
together with the error events fired through `handleError` during the step. -/
def reduceStep (s : SessionState) (a : Action) :
    Except DialobErr SessionState × List ErrEvent :=
  match a with
  | Action.RESET =>
      (Except.ok { s with items := [], reverseItemMap := [], valueSets := [],
                          errors := [], locale := none, complete := false }, [])
  | Action.ANSWER id answer =>
      match omLookup s.items id with
      | none =>
          (Except.error ⟨"No item found with id \x27" ++ id ++ "\x27", false⟩, [])
      | some it =>
          if it.type = "questionnaire" ∨ it.type = "group" ∨
             it.type = "surveygroup" ∨ it.type = "note" then
            (Except.error ⟨"Item \x27" ++ id ++ "\x27 is not an answer!", false⟩, [])
          else
            (Except.ok { s with items := omInsert s.items id { it with value := answer } }, [])
  | Action.ITEM item =>
      let s1 := { s with items := omInsert s.items item.id item }
      match item.items with
      | some kids =>
          (Except.ok { s1 with
              reverseItemMap := insertReverseRef s1.reverseItemMap item.id kids }, [])
      | none => (Except.ok s1, [])
  | Action.ERROR e => (Except.ok { s with errors := s.errors ++ [e] }, [])
  | Action.LOCALE v => (Except.ok { s with locale := some v }, [])
  | Action.VALUE_SET vs =>
      (Except.ok { s with valueSets := omInsert s.valueSets vs.id vs }, [])
  | Action.REMOVE_ITEMS ids =>
      (Except.ok (ids.foldl removeOneId s), [])
  | Action.COMPLETE => (Except.ok { s with complete := true }, [])
  | Action.NEXT => (Except.ok s, [])
  | Action.PREVIOUS => (Except.ok s, [])
  | Action.UNKNOWN _ =>
      (Except.ok s, [handleError ⟨"Unexpected action type!", false⟩])

/-- The `applyActions` action loop over a whole batch: left to right, a
thrown error aborts the remainder; error events fired so far are kept (the
listeners already ran). -/
def reduceList (s : SessionState) : List Action →
    Except DialobErr SessionState × List ErrEvent
  | [] => (Except.ok s, [])
  | a :: rest =>
      match reduceStep s a with
      | (Except.ok s', evs) =>
          let r := reduceList s' rest
          (r.1, evs ++ r.2)
      | (Except.error e, evs) => (Except.error e, evs)

/-- The `if(rev) state.rev = rev` prologue of `applyActions`: JS truthiness,
so `rev = 0` (and an absent `rev`) leaves `state.rev` unchanged. -/
def applyRev (s : SessionState) (rev? : Option Nat) : SessionState :=
  match rev? with
  | some r => if r = 0 then s else { s with rev := r }
  | none => s

/-- Outcome of one `applyActions` call as observed on the session: the state
the session holds afterwards, the error thrown to the caller (if any), the
error events fired, and whether the update listeners fired. -/
structure ApplyResult where
  state : SessionState
  thrown : Option DialobErr
  errorEvents : List ErrEvent
  updateFired : Bool
deriving DecidableEq, Repr

/-- `applyActions(actions, rev)` including immer semantics: the rev prologue
and the action loop run on a draft; if anything throws, the draft — the rev
write included — is discarded and `this.state` keeps its previous value, and
the update listeners do not fire. -/
def applyToSession (s : SessionState) (actions : List Action)
    (rev? : Option Nat) : ApplyResult :=
  match reduceList (applyRev s rev?) actions with
  | (Except.ok s', evs) => ⟨s', none, evs, true⟩
  | (Except.error e, evs) => ⟨s, some e, evs, false⟩

/-- Snapshots reachable from the empty snapshot by `applyActions` calls
(any action batches, with or without a server revision). -/
inductive StateReach : SessionState → Prop where
  | init : StateReach initialState
  | apply (s : SessionState) (actions : List Action) (rev? : Option Nat) :
      StateReach s → StateReach (applyToSession s actions rev?).state

/-- The mutable fields of a `Session` relevant to queueing and syncing: the
current snapshot, the pending action queue and the debounce timer, modelled
as the absolute time (`setTimeout` deadline) at which it fires, `none` when
unarmed. -/
structure Session where
  state : SessionState
  syncActionQueue : List Action
  timerDeadline : Option Nat
deriving DecidableEq, Repr

/-- The session right after the constructor runs. -/
def initialSession : Session :=
  { state := initialState, syncActionQueue := [], timerDeadline := none }

/-- `queueAction(action)` issued at time `now`: cancel any pending timer,
arm a fresh 500ms timer, push the action onto the queue, and only then apply
it optimistically. A throw from `applyActions` propagates to the caller (the
second component), but the queue push and the timer arming have already
happened and persist. -/
def queueAction (sess : Session) (now : Nat) (a : Action) :
    Session × Option DialobErr :=
  let sess1 := { sess with timerDeadline := some (now + 500),
                           syncActionQueue := sess.syncActionQueue ++ [a] }
  let r := applyToSession sess1.state [a] none
  ({ sess1 with state := r.state }, r.thrown)

/-- `setAnswer(itemId, answer)` issued at time `now`. -/
def setAnswer (sess : Session) (now : Nat) (itemId : String)
    (answer : Option String) : Session × Option DialobErr :=
  queueAction sess now (Action.ANSWER itemId answer)

/-- `complete()` issued at time `now`. -/
def completeSession (sess : Session) (now : Nat) : Session × Option DialobErr :=
  queueAction sess now Action.COMPLETE

/-- What `syncQueuedActions` does up to the transport call: disarm the
timer, sweep the queue, and hand the swept batch to `sync`, which emits
INPROGRESS and then calls `transport.update(id, actions, rev)`. `request` is
the payload of that unconditional network call; there is no empty-queue
guard in the code. -/
structure FlushResult where
  session : Session
  request : Option (List Action × Nat)
  syncInProgressFired : Bool
deriving DecidableEq, Repr

/-- `syncQueuedActions` (the timer callback) as far as its synchronous
prefix goes: capture and clear the queue atomically, then `sync(queue, rev)`
fires INPROGRESS and issues the transport call. -/
def syncQueuedActions (sess : Session) : FlushResult :=
  let queue := sess.syncActionQueue
  { session := { sess with syncActionQueue := [], timerDeadline := none },
    request := some (queue, sess.state.rev),
    syncInProgressFired := true }

/-- Session states reachable from the constructor through the operations
that touch the queue or the timer: optimistic enqueues (whether or not the
optimistic apply throws), timer-triggered flushes, and reducer invocations
from server responses (`sync`/`pull` apply actions but leave the queue and
timer alone). -/
inductive SessReach : Session → Prop where
  | init : SessReach initialSession
  | enqueue (s : Session) (now : Nat) (a : Action) :
      SessReach s → SessReach (queueAction s now a).1
  | flush (s : Session) :
      SessReach s → SessReach (syncQueuedActions s).session
  | serverApply (s : Session) (actions : List Action) (rev? : Option Nat) :
      SessReach s →
      SessReach { s with state := (applyToSession s.state actions rev?).state }

/-- Timed model of the debounce loop: pending queue, timer deadline, and the
record of flushed batches (each flush is one `transport.update` call). -/
structure TimedSession where
  queue : List Action
  timerDeadline : Option Nat
  flushes : List (List Action)
deriving DecidableEq, Repr

/-- The timed session before any enqueue. -/
def timedInit : TimedSession := { queue := [], timerDeadline := none, flushes := [] }

/-- Fire the debounce timer if it is armed: the whole queue is swept into
one flush and the timer is disarmed. -/
def fireTimer (s : TimedSession) : TimedSession :=
  match s.timerDeadline with
  | some _ => { queue := [], timerDeadline := none, flushes := s.flushes ++ [s.queue] }
  | none => s

/-- An `enqueue` arriving at time `t`: the event loop first runs the timer
callback if its deadline has passed, then `queueAction` cancels and re-arms
the timer for `t + 500` and appends the action. -/
def stepEnqueue (s : TimedSession) (t : Nat) (a : Action) : TimedSession :=
  let s1 :=
    match s.timerDeadline with
    | some d => if d ≤ t then fireTimer s else s
    | none => s
  { s1 with queue := s1.queue ++ [a], timerDeadline := some (t + 500) }

/-- Run a schedule of timed enqueues and then let the final timer fire. -/
def runSchedule (evs : List (Nat × Action)) : TimedSession :=
  fireTimer (evs.foldl (fun s ta => stepEnqueue s ta.1 ta.2) timedInit)

/-- `ChainLt prev evs`: each event arrives strictly less than 500ms after
the previous one (so the armed timer never fires in between). -/
def ChainLt : Nat → List (Nat × Action) → Prop
  | _, [] => True
  | prev, (t, _) :: rest => prev ≤ t ∧ t < prev + 500 ∧ ChainLt t rest

/-- `findIndex(t => t === listener)` on a listener list, listeners compared
by reference identity (modelled by numeric tokens): first index or `-1`. -/
def jsFindIndex (l : List Nat) (x : Nat) : Int :=
  match l.indexOf? x with
  | some i => (i : Int)
  | none => -1

/-- `Array.prototype.splice(start, 1)`: a negative `start` counts from the
end, clamped at 0; removes one element at the resolved position if any. -/
def jsSplice1 {α : Type} (l : List α) (start : Int) : List α :=
  let n : Int := l.length
  let s := if start < 0 then max (n + start) 0 else min start n
  l.take s.toNat ++ l.drop (s.toNat + 1)

/-- The three listener lists of a session. -/
structure Listeners where
  update : List Nat
  sync : List Nat
  error : List Nat
deriving DecidableEq, Repr

/-- The event classes of the subscription surface. -/
inductive EventClass where
  | update
  | sync
  | error
deriving DecidableEq, Repr

/-- Read one listener list. -/
def getListeners (ls : Listeners) : EventClass → List Nat
  | EventClass.update => ls.update
  | EventClass.sync => ls.sync
  | EventClass.error => ls.error

/-- Write one listener list. -/
def setListeners (ls : Listeners) : EventClass → List Nat → Listeners
  | EventClass.update, l => { ls with update := l }
  | EventClass.sync, l => { ls with sync := l }
  | EventClass.error, l => { ls with error := l }

/-- `removeListener(type, listener)`: `findIndex` then `splice(idx, 1)` with
no guard against `idx = -1`. -/
def removeListener (ls : Listeners) (t : EventClass) (x : Nat) : Listeners :=
  let target := getListeners ls t
  setListeners ls t (jsSplice1 target (jsFindIndex target x))

/-- Does `items[parent]` exist, carry an `items` field, and list `child`?
(The forward containment edge of the invariant.) -/
def containerHasChild (s : SessionState) (parent child : String) : Bool :=
  match omLookup s.items parent with
  | some it =>
      match it.items with
      | some kids => child ∈ kids
      | none => false
  | none => false

/-- Does `reverseItemMap[child]` contain `parent`? (The reverse edge.) -/
def revRefHas (s : SessionState) (child parent : String) : Bool :=
  parent ∈ (omLookup s.reverseItemMap child).getD []

/-! ### Helper lemmas about the object-map and reverse-reference operations -/

theorem omLookup_omInsert_self {α : Type} (m : ObjMap α) (k : String) (v : α) :
    omLookup (omInsert m k v) k = some v := by
  induction m with
  | nil => simp [omInsert, omLookup]
  | cons p rest ih =>
      by_cases h : p.1 = k
      · simp [omInsert, omLookup, h]
      · simp [omInsert, omLookup, h, ih]

theorem omLookup_omInsert_ne {α : Type} (m : ObjMap α) (k k' : String) (v : α)
    (h : k ≠ k') : omLookup (omInsert m k v) k' = omLookup m k' := by
  induction m with
  | nil => simp [omInsert, omLookup, h]
  | cons p rest ih =>
      by_cases hp : p.1 = k
      · simp [omInsert, omLookup, hp, h]
      · simp [omInsert, omLookup, hp, ih]

theorem setAdd_self (l : List String) (x : String) : x ∈ setAdd l x := by
  unfold setAdd
  by_cases h : x ∈ l <;> simp [h]

theorem insertReverseRef_preserves (kids : List String) :
    ∀ (rim : ObjMap (List String)) (pid c : String),
    pid ∈ (omLookup rim c).getD [] →
    pid ∈ (omLookup (insertReverseRef rim pid kids) c).getD [] := by
  induction kids with
  | nil => intro rim pid c h; simpa [insertReverseRef] using h
  | cons k rest ih =>
      intro rim pid c h
      have hstep : insertReverseRef rim pid (k :: rest) =
          insertReverseRef (omInsert rim k (setAdd ((omLookup rim k).getD []) pid)) pid rest := by
        simp [insertReverseRef, List.foldl_cons]
      rw [hstep]
      apply ih
      by_cases hk : k = c
      · subst hk
        rw [omLookup_omInsert_self]
        simp only [Option.getD_some]
        unfold setAdd
        by_cases hp : pid ∈ (omLookup rim k).getD [] <;> simp [hp, h]
      · rw [omLookup_omInsert_ne _ _ _ _ hk]
        exact h

theorem insertReverseRef_mem (kids : List String) :
    ∀ (rim : ObjMap (List String)) (pid c : String), c ∈ kids →
    pid ∈ (omLookup (insertReverseRef rim pid kids) c).getD [] := by
  induction kids with
  | nil => intro rim pid c h; cases h
  | cons k rest ih =>
      intro rim pid c hc
      have hstep : insertReverseRef rim pid (k :: rest) =
          insertReverseRef (omInsert rim k (setAdd ((omLookup rim k).getD []) pid)) pid rest := by
        simp [insertReverseRef, List.foldl_cons]
      rw [hstep]
      rcases List.mem_cons.mp hc with hk | hrest
      · subst hk
        apply insertReverseRef_preserves
        rw [omLookup_omInsert_self]
        simpa using setAdd_self _ pid
      · exact ih _ pid c hrest

/-! ### Helper lemmas: no action writes `rev` inside the reducer loop -/

theorem removeOneId_rev (s : SessionState) (id : String) :
    (removeOneId s id).rev = s.rev := by
  simp [removeOneId]

theorem foldl_removeOneId_rev (ids : List String) :
    ∀ s : SessionState, (ids.foldl removeOneId s).rev = s.rev := by
  induction ids with
  | nil => intro s; rfl
  | cons i rest ih => intro s; rw [List.foldl_cons, ih, removeOneId_rev]

theorem reduceStep_rev (s : SessionState) (a : Action) (s' : SessionState)
    (h : (reduceStep s a).1 = Except.ok s') : s'.rev = s.rev := by
  cases a with
  | RESET => simp [reduceStep] at h; subst h; rfl
  | ANSWER id answer =>
      simp only [reduceStep] at h
      cases hl : omLookup s.items id with
      | none => rw [hl] at h; simp at h
      | some it =>
          rw [hl] at h
          by_cases ht : it.type = "questionnaire" ∨ it.type = "group" ∨
              it.type = "surveygroup" ∨ it.type = "note"
          · simp [ht] at h
          · simp [ht] at h; subst h; rfl
  | ITEM item =>
      simp only [reduceStep] at h
      cases hi : item.items with
      | some kids => rw [hi] at h; simp at h; subst h; rfl
      | none => rw [hi] at h; simp at h; subst h; rfl
  | ERROR e => simp [reduceStep] at h; subst h; rfl
  | LOCALE v => simp [reduceStep] at h; subst h; rfl
  | VALUE_SET vs => simp [reduceStep] at h; subst h; rfl
  | REMOVE_ITEMS ids =>
      simp [reduceStep] at h; subst h; exact foldl_removeOneId_rev ids s
  | COMPLETE => simp [reduceStep] at h; subst h; rfl
  | NEXT => simp [reduceStep] at h; subst h; rfl
  | PREVIOUS => simp [reduceStep] at h; subst h; rfl
  | UNKNOWN tag => simp [reduceStep] at h; subst h; rfl

theorem reduceList_rev (actions : List Action) :
    ∀ (s s' : SessionState), (reduceList s actions).1 = Except.ok s' →
    s'.rev = s.rev := by
  induction actions with
  | nil => intro s s' h; simp [reduceList] at h; subst h; rfl
  | cons a rest ih =>
      intro s s' h
      simp only [reduceList] at h
      cases hstep : reduceStep s a with
      | mk r evs =>
          cases r with
          | ok s1 =>
              rw [hstep] at h
              simp only at h
              have h1 : (reduceList s1 rest).1 = Except.ok s' := h
              rw [ih s1 s' h1]
              exact reduceStep_rev s a s1 (by rw [hstep])
          | error e => rw [hstep] at h; simp at h

/-- If `applyActions` throws, the session keeps its previous state. -/
theorem applyToSession_state_of_thrown (s : SessionState) (actions : List Action)
    (rev? : Option Nat) (e : DialobErr)
    (h : (applyToSession s actions rev?).thrown = some e) :
    (applyToSession s actions rev?).state = s := by
  unfold applyToSession at *
  cases hr : reduceList (applyRev s rev?) actions with
  | mk r evs =>
      cases r with
      | ok s' => rw [hr] at h; simp at h
      | error e' => rfl

/-! ### Helper lemma: the debounce loop under a chain of quick enqueues -/

theorem debounce_loop (evs : List (Nat × Action)) :
    ∀ (tp : Nat) (q : List Action) (f : List (List Action)), ChainLt tp evs →
    fireTimer (evs.foldl (fun s ta => stepEnqueue s ta.1 ta.2)
        { queue := q, timerDeadline := some (tp + 500), flushes := f }) =
      { queue := [], timerDeadline := none, flushes := f ++ [q ++ evs.map Prod.snd] } := by
  induction evs with
  | nil =>
      intro tp q f _
      simp [fireTimer]
  | cons ta rest ih =>
      intro tp q f h
      obtain ⟨hle, hlt, hrest⟩ := h
      have hstep : stepEnqueue { queue := q, timerDeadline := some (tp + 500), flushes := f }
          ta.1 ta.2 =
          { queue := q ++ [ta.2], timerDeadline := some (ta.1 + 500), flushes := f } := by
        have hnot : ¬ (tp + 500 ≤ ta.1) := by omega
        simp [stepEnqueue, hnot]
      rw [List.foldl_cons, hstep, ih ta.1 (q ++ [ta.2]) f hrest]
      simp

/-! ### Helper lemmas for the listener registry -/

theorem jsFindIndex_eq_neg_one (l : List Nat) (x : Nat) (hx : x ∉ l) :
    jsFindIndex l x = -1 := by
  unfold jsFindIndex
  have h : l.indexOf? x = none := by
    rw [List.indexOf?_eq_none_iff]
    intro y hy
    simp only [beq_iff_eq]
    intro hyx
    exact hx (hyx ▸ hy)
  rw [h]

theorem jsSplice1_neg_one {α : Type} (l : List α) (hne : l ≠ []) :
    jsSplice1 l (-1) = l.dropLast := by
  have hlen : 0 < l.length := List.length_pos.mpr hne
  simp only [jsSplice1]
  have hif : (if (-1 : Int) < 0 then max ((l.length : Int) + -1) 0
      else min (-1) ((l.length : Int))) = ((l.length - 1 : Nat) : Int) := by
    rw [if_pos (by norm_num)]
    omega
  rw [hif, Int.toNat_natCast]
  have hsum : l.length - 1 + 1 = l.length := by omega
  rw [hsum, List.drop_length, List.append_nil, List.dropLast_eq_take]

theorem getListeners_setListeners_self (ls : Listeners) (t : EventClass)
    (l : List Nat) : getListeners (setListeners ls t l) t = l := by
  cases t <;> rfl

/-! ### Claim C1 -/

/-- The spec example trace behind claim C1: insert the group `q1` with
child `a1`, insert `a1`, then `REMOVE_ITEMS(['a1'])`. -/
def c1Actions : List Action :=
  [Action.ITEM ⟨"q1", "group", some ["a1"], none⟩,
   Action.ITEM ⟨"a1", "text", none, none⟩,
   Action.REMOVE_ITEMS ["a1"]]

/-- Claim C1 (evaluation at the failing input): after the spec example
trace, `items['a1']` and `reverseItemMap['a1']` are deleted as the claim
says, but `items['q1'].items` STILL contains `'a1'`: the removal loop
splices at `indexOf(reference)` — the parent's own id `'q1'` — instead of
the removed id, so the child is never removed from the parent's children
sequence. -/
theorem c1_removeItems_leaves_child_listed :
    omLookup (applyToSession initialState c1Actions none).state.items "a1" = none ∧
    omLookup (applyToSession initialState c1Actions none).state.reverseItemMap "a1" = none ∧
    containerHasChild (applyToSession initialState c1Actions none).state "q1" "a1" = true := by
  refine ⟨rfl, rfl, rfl⟩

/-! ### Claim C2 -/

/-- The trace behind the claim C2 counterexample: upsert `q1` with child
`a1`, then upsert `q1` again with an empty children list. `ITEM` is
additive-only on the reverse map, so the stale edge `a1 -> q1` survives. -/
def c2Actions : List Action :=
  [Action.ITEM ⟨"q1", "group", some ["a1"], none⟩,
   Action.ITEM ⟨"q1", "group", some [], none⟩]

/-- The reachable snapshot violating the claimed invariant. -/
def c2BadState : SessionState := (applyToSession initialState c2Actions none).state

/-- Claim C2 counterexample: a snapshot reachable from the empty snapshot
by `applyActions` in which `reverseItemMap['a1']` contains `'q1'` although
`items['q1']` is a container whose children sequence does NOT contain
`'a1'` — the claimed if-and-only-if invariant fails on reachable
snapshots. -/
theorem c2_reverse_map_invariant_fails :
    StateReach c2BadState ∧
    revRefHas c2BadState "a1" "q1" = true ∧
    containerHasChild c2BadState "q1" "a1" = false := by
  refine ⟨?_, rfl, rfl⟩
  exact StateReach.apply initialState c2Actions none StateReach.init

/-- Claim C2 (amended): only the insertion half survives, and only at the
moment of insertion: immediately after an `ITEM` action for an item whose
`items` field lists `c`, the reverse map entry of `c` contains the item's
id. The full if-and-only-if is not an invariant of reachable snapshots:
`ITEM` upserts never remove stale reverse edges and `REMOVE_ITEMS` can
leave forward edges without reverse entries. -/
theorem c2_item_inserts_reverse_edges (s : SessionState) (item : SessionItem)
    (kids : List String) (c : String) (hk : item.items = some kids)
    (hc : c ∈ kids) :
    revRefHas (applyToSession s [Action.ITEM item] none).state c item.id = true := by
  have hrim : (applyToSession s [Action.ITEM item] none).state.reverseItemMap =
      insertReverseRef s.reverseItemMap item.id kids := by
    simp [applyToSession, applyRev, reduceList, reduceStep, hk]
  simp only [revRefHas, hrim, decide_eq_true_eq]
  exact insertReverseRef_mem kids s.reverseItemMap item.id c hc

/-- Claim C2 amended-claim witness at a concrete input. -/
theorem c2_item_inserts_reverse_edges_w :
    revRefHas (applyToSession initialState
      [Action.ITEM ⟨"q1", "group", some ["a1"], none⟩] none).state "a1" "q1" = true :=
  c2_item_inserts_reverse_edges initialState ⟨"q1", "group", some ["a1"], none⟩
    ["a1"] "a1" rfl (by decide)

/-! ### Claim C3 -/

/-- Claim C3 counterexample: `ANSWER` on a missing item is thrown to the
caller of `apply` (`thrown` is set) and nothing at all is delivered on the
error channel (`errorEvents = []`), contradicting the claim that the error
is delivered on the error channel rather than thrown. -/
theorem c3_answer_error_thrown_not_routed :
    (applyToSession initialState [Action.ANSWER "x" (some "hello")] none).thrown.isSome = true ∧
    (applyToSession initialState [Action.ANSWER "x" (some "hello")] none).errorEvents = [] := by
  refine ⟨rfl, rfl⟩

/-- Claim C3 (amended): `ANSWER(id, value)` on a missing item or on an item
of kind questionnaire/group/surveygroup/note throws a `DialobError`
synchronously to the caller of `apply` — it is not routed to the error
listeners — and leaves the snapshot unchanged (no update event); when
`items[id]` exists and is answerable, it sets that item's `value`. -/
theorem c3_answer_semantics (s : SessionState) (id : String) (v : Option String) :
    (omLookup s.items id = none →
      applyToSession s [Action.ANSWER id v] none =
        ⟨s, some ⟨"No item found with id \x27" ++ id ++ "\x27", false⟩, [], false⟩) ∧
    (∀ it, omLookup s.items id = some it →
      (it.type = "questionnaire" ∨ it.type = "group" ∨
       it.type = "surveygroup" ∨ it.type = "note") →
      applyToSession s [Action.ANSWER id v] none =
        ⟨s, some ⟨"Item \x27" ++ id ++ "\x27 is not an answer!", false⟩, [], false⟩) ∧
    (∀ it, omLookup s.items id = some it →
      ¬(it.type = "questionnaire" ∨ it.type = "group" ∨
        it.type = "surveygroup" ∨ it.type = "note") →
      applyToSession s [Action.ANSWER id v] none =
        ⟨{ s with items := omInsert s.items id { it with value := v } }, none, [], true⟩) := by
  refine ⟨?_, ?_, ?_⟩
  · intro h
    simp [applyToSession, applyRev, reduceList, reduceStep, h]
  · intro it h ht
    simp [applyToSession, applyRev, reduceList, reduceStep, h, if_pos ht]
  · intro it h ht
    simp [applyToSession, applyRev, reduceList, reduceStep, h, if_neg ht]

/-- Claim C3 amended-claim witness at a concrete input. -/
theorem c3_answer_semantics_w :
    applyToSession initialState [Action.ANSWER "x" (some "hello")] none =
      ⟨initialState, some ⟨"No item found with id \x27" ++ "x" ++ "\x27", false⟩,
       [], false⟩ :=
  (c3_answer_semantics initialState "x" (some "hello")).1 rfl

/-! ### Claim C4 -/

/-- Claim C4 counterexample: supplying `newRev = 0` to `apply` does NOT
overwrite `rev` — `if(rev)` is a JS truthiness test and `0` is falsy — so
from a snapshot at `rev = 5` the resulting rev is 5, not the supplied 0. -/
theorem c4_rev_zero_ignored :
    (applyToSession { initialState with rev := 5 } [] (some 0)).state.rev = 5 ∧
    (applyToSession { initialState with rev := 5 } [] (some 0)).state.rev ≠ 0 := by
  refine ⟨rfl, by decide⟩

/-- Claim C4 (amended): a NONZERO `newRev` overwrites `rev`, and the update
is visible in the resulting state provided the batch throws no error; when
the batch throws, the whole transition — the rev overwrite included — is
discarded and the session keeps its previous state (`newRev = 0` is ignored
by the truthiness guard). -/
theorem c4_rev_overwrite_policy (s : SessionState) (actions : List Action)
    (r : Nat) (hr : r ≠ 0) :
    ((applyToSession s actions (some r)).thrown = none →
      (applyToSession s actions (some r)).state.rev = r) ∧
    (∀ e, (applyToSession s actions (some r)).thrown = some e →
      (applyToSession s actions (some r)).state = s) := by
  have hrev : applyRev s (some r) = { s with rev := r } := by
    simp [applyRev, hr]
  constructor
  · intro hok
    unfold applyToSession at hok ⊢
    rw [hrev] at hok ⊢
    cases hred : reduceList { s with rev := r } actions with
    | mk res evs =>
        cases res with
        | ok s' =>
            have := reduceList_rev actions { s with rev := r } s' (by rw [hred])
            simpa using this
        | error e =>
            rw [hred] at hok
            simp at hok
  · intro e he
    exact applyToSession_state_of_thrown s actions (some r) e he

/-- Claim C4 amended-claim witness at a concrete input. -/
theorem c4_rev_overwrite_policy_w :
    (applyToSession initialState [] (some 7)).state.rev = 7 :=
  (c4_rev_overwrite_policy initialState [] 7 (by decide)).1 rfl

/-! ### Claim C5 -/

/-- A session with the debounce timer armed and an empty pending queue. -/
def c5ArmedSession : Session :=
  { state := initialState, syncActionQueue := [], timerDeadline := some 500 }

/-- Claim C5 counterexample: when the timer callback runs on an empty
queue, the flush is NOT a no-op: `transport.update` is called with an empty
batch and the INPROGRESS sync event fires — there is no empty-queue guard
in `syncQueuedActions`. -/
theorem c5_empty_flush_still_calls :
    (syncQueuedActions c5ArmedSession).request = some ([], 0) ∧
    (syncQueuedActions c5ArmedSession).syncInProgressFired = true := by
  refine ⟨rfl, rfl⟩

/-- Claim C5 (amended): flushing an empty queue does make a network call
(with an empty action batch) and does emit the sync-lifecycle event — the
code has no guard; however, in every session state reachable through
enqueues, flushes and server applies, the timer is armed only while the
queue is nonempty, so the debounce timer never actually fires on an empty
queue. -/
theorem c5_empty_flush_behavior (s : Session) (hq : s.syncActionQueue = [])
    (s2 : Session) (h2 : SessReach s2) :
    (syncQueuedActions s).request = some ([], s.state.rev) ∧
    (s2.timerDeadline.isSome = true → s2.syncActionQueue ≠ []) := by
  constructor
  · simp [syncQueuedActions, hq]
  · induction h2 with
    | init =>
        intro h
        simp [initialSession] at h
    | enqueue s3 now a _ _ =>
        intro _
        simp [queueAction]
    | flush s3 _ _ =>
        intro h
        simp [syncQueuedActions] at h
    | serverApply s3 actions rev? _ ih =>
        simpa using ih

/-- Claim C5 amended-claim witness at a concrete input. -/
theorem c5_empty_flush_behavior_w :
    (syncQueuedActions initialSession).request = some ([], initialSession.state.rev) ∧
    (initialSession.timerDeadline.isSome = true → initialSession.syncActionQueue ≠ []) :=
  c5_empty_flush_behavior initialSession rfl initialSession SessReach.init

/-! ### Claim C6 -/

/-- Claim C6: applying `RESET` (with no `newRev` argument) clears `items`,
`reverseItemMap`, `valueSets`, `errors`, `locale` and `complete` to their
empty defaults and leaves `rev` unchanged; no error is thrown, no error
event fires, and the update listeners fire. -/
theorem c6_reset_clears_and_keeps_rev (s : SessionState) :
    applyToSession s [Action.RESET] none =
      ⟨{ items := [], reverseItemMap := [], valueSets := [], errors := [],
         locale := none, rev := s.rev, complete := false }, none, [], true⟩ := rfl

/-! ### Claim C7 -/

/-- Claim C7: for any nonempty sequence of enqueues whose consecutive gaps
are all shorter than the 500ms quiet window, each enqueue re-arms the single
timer without it firing in between, and exactly one flush occurs, whose
batch is the whole list of enqueued actions in order. -/
theorem c7_debounce_single_flush (t0 : Nat) (a0 : Action)
    (rest : List (Nat × Action)) (h : ChainLt t0 rest) :
    runSchedule ((t0, a0) :: rest) =
      { queue := [], timerDeadline := none,
        flushes := [a0 :: rest.map Prod.snd] } := by
  unfold runSchedule
  rw [List.foldl_cons]
  have h0 : stepEnqueue timedInit t0 a0 =
      { queue := [a0], timerDeadline := some (t0 + 500), flushes := [] } := by
    simp [stepEnqueue, timedInit]
  rw [h0, debounce_loop rest t0 [a0] [] h]
  simp

/-- Claim C7 witness: three enqueues 100ms apart produce exactly one flush
carrying all three actions. -/
theorem c7_debounce_single_flush_w :
    runSchedule [(0, Action.COMPLETE), (100, Action.NEXT), (200, Action.PREVIOUS)] =
      { queue := [], timerDeadline := none,
        flushes := [[Action.COMPLETE, Action.NEXT, Action.PREVIOUS]] } := by
  have h : ChainLt 0 [(100, Action.NEXT), (200, Action.PREVIOUS)] := by
    simp only [ChainLt, and_true]
    omega
  simpa using c7_debounce_single_flush 0 Action.COMPLETE
    [(100, Action.NEXT), (200, Action.PREVIOUS)] h

/-! ### Claim C8 -/

/-- Claim C8: an action with an unrecognised tag raises a client-side
error `Unexpected action type!` that is delivered to the error listeners
classified CLIENT, is not thrown to the caller of `apply`, and leaves every
snapshot field unchanged. -/
theorem c8_unknown_action_routed_to_client (s : SessionState) (tag : String) :
    applyToSession s [Action.UNKNOWN tag] none =
      ⟨s, none, [(ErrClass.CLIENT, ⟨"Unexpected action type!", false⟩)], true⟩ := rfl

/-! ### Claim C9 -/

/-- Claim C9: `removeListener` with a listener that is not subscribed to
the given event class removes the MOST RECENTLY ADDED listener of that
class (`findIndex` yields `-1` and `splice(-1, 1)` deletes the last
element) instead of leaving the list unchanged. -/
theorem c9_removeListener_absent_removes_last (ls : Listeners) (t : EventClass)
    (x : Nat) (hx : x ∉ getListeners ls t) (hne : getListeners ls t ≠ []) :
    getListeners (removeListener ls t x) t = (getListeners ls t).dropLast := by
  simp only [removeListener]
  rw [jsFindIndex_eq_neg_one _ _ hx, jsSplice1_neg_one _ hne,
    getListeners_setListeners_self]

/-- Claim C9 witness at a concrete input: removing an unknown listener
token from `[1, 2, 3]` yields `[1, 2]`. -/
theorem c9_removeListener_absent_removes_last_w :
    getListeners (removeListener ⟨[1, 2, 3], [], []⟩ EventClass.update 7)
      EventClass.update = [1, 2] := by
  have h := c9_removeListener_absent_removes_last ⟨[1, 2, 3], [], []⟩
    EventClass.update 7 (by decide) (by decide)
  simpa using h

/-! ### Claim C10 -/

/-- Claim C10: `queueAction` arms the debounce timer and appends the action
to the pending queue BEFORE applying it optimistically, so when the
optimistic apply throws, the error propagates synchronously to the caller
while the session state is unchanged, the failed action remains in the
queue, the timer is armed, and the next flush still sends that action (with
the unchanged revision) to the remote authority. -/
theorem c10_enqueue_precedes_apply (sess : Session) (now : Nat) (a : Action)
    (e : DialobErr) (h : (applyToSession sess.state [a] none).thrown = some e) :
    (queueAction sess now a).2 = some e ∧
    (queueAction sess now a).1.state = sess.state ∧
    (queueAction sess now a).1.syncActionQueue = sess.syncActionQueue ++ [a] ∧
    (queueAction sess now a).1.timerDeadline = some (now + 500) ∧
    (syncQueuedActions (queueAction sess now a).1).request =
      some (sess.syncActionQueue ++ [a], sess.state.rev) := by
  have hstate : (applyToSession sess.state [a] none).state = sess.state :=
    applyToSession_state_of_thrown sess.state [a] none e h
  refine ⟨?_, ?_, ?_, ?_, ?_⟩
  · simpa [queueAction] using h
  · simpa [queueAction] using hstate
  · simp [queueAction]
  · simp [queueAction]
  · simp [queueAction, syncQueuedActions, hstate]

/-- Claim C10 witness at a concrete input: `setAnswer` on a missing item
throws, yet the ANSWER action sits in the queue and is part of the next
flush's request. -/
theorem c10_enqueue_precedes_apply_w :
    (queueAction initialSession 0 (Action.ANSWER "x" none)).2 =
      some ⟨"No item found with id \x27" ++ "x" ++ "\x27", false⟩ ∧
    (queueAction initialSession 0 (Action.ANSWER "x" none)).1.state =
      initialSession.state ∧
    (queueAction initialSession 0 (Action.ANSWER "x" none)).1.syncActionQueue =
      initialSession.syncActionQueue ++ [Action.ANSWER "x" none] ∧
    (queueAction initialSession 0 (Action.ANSWER "x" none)).1.timerDeadline =
      some (0 + 500) ∧
    (syncQueuedActions (queueAction initialSession 0 (Action.ANSWER "x" none)).1).request =
      some (initialSession.syncActionQueue ++ [Action.ANSWER "x" none],
        initialSession.state.rev) :=
  c10_enqueue_precedes_apply initialSession 0 (Action.ANSWER "x" none)
    ⟨"No item found with id \x27" ++ "x" ++ "\x27", false⟩ rfl

end Dialob
